import Mathlib

/-!
Shallow embedding of the Google Home MCP server core
(`src/mcp-server/mcp_google_home.py`, duplicated with minor cosmetic
differences in `src/mcp-server/mcp_server.py`): the device registry,
discovery, name-based lookup, and the command dispatch surface.

Modelling conventions:
- Python wall-clock timestamps (`time.time()`) are modelled as `Nat`.
- Python floats (volume levels, media durations) are modelled as exact
  rationals (`Rat`); no claim depends on float rounding.
- Python `str.lower()` is modelled by `String.toLower`.
- External calls (the pychromecast scan, `browser.stop_discovery()`,
  `cast.wait()`, media-controller commands) are modelled by an explicit
  environment recording whether each call raises, and by an effect trace
  recording each device-layer call actually issued.
- `datetime.fromtimestamp(..).strftime(..)` formatting in `list_devices`
  is abstracted to the raw timestamp value; no claim depends on it.
-/

namespace MCP

/-- One discovered cast device, with the fields this code reads
(`cast.name`, `cast.device.friendly_name`, `cast.model_name`,
`cast.device.manufacturer`, `str(cast.uuid)`, `cast.host`, `cast.port`,
`cast.cast_type`). -/
structure CastDevice where
  name : String
  friendly_name : String
  model_name : String
  manufacturer : String
  uuid : String
  host : String
  port : Nat
  cast_type : String
deriving DecidableEq, Repr

/-- The per-device dict built by `discover_devices` on success. -/
structure DeviceInfo where
  name : String
  friendly_name : String
  model : String
  manufacturer : String
  uuid : String
  host : String
  port : Nat
  cast_type : String
deriving DecidableEq, Repr

/-- `self.chromecasts` and `self.last_discovery_time` of
`GoogleHomeMCPServer`: the device registry plus the last-discovery
timestamp (None until the first discovery). -/
structure ServerState where
  chromecasts : List CastDevice
  last_discovery_time : Option Nat
deriving DecidableEq, Repr

/-- Media metadata read from `cast.media_controller.status`. -/
structure MediaStatus where
  content_id : String
  content_type : String
  title : String
  artist : String
  album_name : String
  player_state : String
  duration : Option Rat
  current_time : Option Rat
deriving DecidableEq, Repr

/-- Live device state read after `cast.wait()` in `get_device_status`
(queried from the device, not cached in the registry). -/
structure DeviceRuntime where
  is_idle : Bool
  app_id : Option String
  app_display_name : Option String
  volume_level : Rat
  volume_muted : Bool
  media_status : Option MediaStatus
deriving DecidableEq, Repr

/-- The `status` dict built by `get_device_status`; the `media` key is
present only when `cast.media_controller.status` is truthy. -/
structure StatusSnapshot where
  name : String
  model : String
  is_idle : Bool
  app_id : Option String
  app_display_name : Option String
  volume_level : Rat
  volume_muted : Bool
  media : Option MediaStatus
deriving DecidableEq, Repr

/-- Result envelope for the command tools (`get_device_status`,
`play_media`, `pause_media`, `resume_media`, `stop_media`, `set_volume`,
`speak_text`). Keys absent from a given Python dict are `none`. -/
structure CmdResult where
  success : Bool
  error : Option String := none
  message : Option String := none
  device : Option String := none
  media_url : Option String := none
  volume : Option Rat := none
  text : Option String := none
  language : Option String := none
  status : Option StatusSnapshot := none
deriving DecidableEq, Repr

/-- Result envelope of `discover_devices`. On failure the Python dict
has no `device_count`/`devices` keys; the defaults `0`/`[]` stand for
those absent keys. -/
structure DiscoverResult where
  success : Bool
  device_count : Nat := 0
  devices : List DeviceInfo := []
  message : String
  error : Option String := none
deriving DecidableEq, Repr

/-- The per-device dict built by `list_devices`. -/
structure ListDeviceInfo where
  name : String
  model : String
  host : String
  uuid : String
deriving DecidableEq, Repr

/-- Result envelope of `list_devices`. `last_discovery` keeps the raw
timestamp (`some none` is the "Never" case; outer `none` means the key
is absent, as in the empty-registry branch). -/
structure ListResult where
  success : Bool
  device_count : Option Nat := none
  devices : List ListDeviceInfo := []
  last_discovery : Option (Option Nat) := none
  message : Option String := none
  error : Option String := none
deriving DecidableEq, Repr

/-- Device-layer calls issued by the command tools. -/
inductive Effect where
  | wait
  | playMedia (url : String) (content_type : String) (title : Option String)
  | blockUntilActive
  | pause
  | resumePlay
  | stopPlayback
  | setVolume (volume : Rat)
deriving DecidableEq, Repr

/-- External calls issued by `discover_devices`. -/
inductive DEvent where
  | scanCall
  | stopDiscovery
  | wait (cast : CastDevice)
deriving DecidableEq, Repr

/-- Outcome of `pychromecast.get_chromecasts(timeout=timeout)`: either
it raises, or it returns a device list together with a browser handle
(`hasBrowser` models the truthiness of `browser` in `if browser:`). -/
inductive ScanOutcome where
  | raised (msg : String)
  | ok (casts : List CastDevice) (hasBrowser : Bool)
deriving DecidableEq, Repr

/-- Environment of one `discover_devices` call: the scan outcome,
whether `browser.stop_discovery()` raises (with its message), which
casts survive the per-device `cast.wait()` / attribute reads of the
inner `try`, and the wall-clock value returned by `time.time()`. -/
structure DiscoveryEnv where
  scan : ScanOutcome
  stopOk : Bool
  stopMsg : String
  infoOk : CastDevice → Bool
  now : Nat

/-- Environment of one command call: whether `cast.wait()` raises,
whether the media-controller/volume call raises, whether
`block_until_active()` raises, the exception texts, and the live state
read by `get_device_status`. -/
structure CmdEnv where
  waitOk : Bool := true
  opOk : Bool := true
  blockOk : Bool := true
  waitErrMsg : String := "wait error"
  opErrMsg : String := "op error"
  blockErrMsg : String := "block error"
  runtime : DeviceRuntime :=
    { is_idle := true, app_id := none, app_display_name := none,
      volume_level := 0, volume_muted := false, media_status := none }

/-! ## Python `urllib.parse.quote` (default `safe='/'`) -/

/-- UTF-8 encoding of one code point, as byte values. -/
def utf8Bytes (c : Char) : List Nat :=
  let n := c.toNat
  if n < 0x80 then [n]
  else if n < 0x800 then [0xC0 + n / 0x40, 0x80 + n % 0x40]
  else if n < 0x10000 then
    [0xE0 + n / 0x1000, 0x80 + n / 0x40 % 0x40, 0x80 + n % 0x40]
  else
    [0xF0 + n / 0x40000, 0x80 + n / 0x1000 % 0x40,
     0x80 + n / 0x40 % 0x40, 0x80 + n % 0x40]

/-- Uppercase hexadecimal digit, as used by `quote`'s `%XX` escapes. -/
def hexDigit (n : Nat) : Char :=
  if n < 10 then Char.ofNat (48 + n) else Char.ofNat (55 + n)

/-- Bytes `quote` leaves unescaped: `_ALWAYS_SAFE` (ASCII letters,
digits, `_.-~`) plus the default `safe='/'`. -/
def isSafeByte (b : Nat) : Bool :=
  (0x41 ≤ b && b ≤ 0x5A) || (0x61 ≤ b && b ≤ 0x7A) ||
  (0x30 ≤ b && b ≤ 0x39) || b == 0x5F || b == 0x2E || b == 0x2D ||
  b == 0x7E || b == 0x2F

/-- Characters `quote` emits for one byte. -/
def quoteByteChars (b : Nat) : List Char :=
  if isSafeByte b then [Char.ofNat b]
  else ['%', hexDigit (b / 16), hexDigit (b % 16)]

/-- `urllib.parse.quote(s)`: percent-encode the UTF-8 bytes of `s`,
leaving safe bytes as-is. -/
def quote (s : String) : String :=
  ⟨((s.data.map utf8Bytes).flatten.map quoteByteChars).flatten⟩

/-- The TTS URL built by `speak_text`:
`f"https://translate.google.com/translate_tts?ie=UTF-8&client=tw-ob&tl={language}&q={quote(text)}"`.
The `language` argument is interpolated verbatim; only `text` goes
through `quote`. -/
def tts_url (language : String) (text : String) : String :=
  "https://translate.google.com/translate_tts?ie=UTF-8&client=tw-ob&tl="
    ++ language ++ "&q=" ++ quote text

/-! ## Operations -/

/-- Python `str.lower()` on one character (ASCII case mapping; Python's
Unicode case mapping agrees with this on the ASCII range). -/
def lowerChar (c : Char) : Char :=
  if 65 ≤ c.toNat && c.toNat ≤ 90 then Char.ofNat (c.toNat + 32) else c

/-- Python `str.lower()`. -/
def strLower (s : String) : String :=
  ⟨s.data.map lowerChar⟩

/-- The per-cast condition of `_find_device`'s loop:
`cast.name.lower() == device_name.lower() or
 cast.device.friendly_name.lower() == device_name.lower()`. -/
def nameMatches (device_name : String) (cast : CastDevice) : Bool :=
  strLower cast.name == strLower device_name ||
  strLower cast.friendly_name == strLower device_name

/-- `_find_device`: first registry entry matching the name, else None. -/
def find_device (st : ServerState) (device_name : String) :
    Option CastDevice :=
  st.chromecasts.find? (nameMatches device_name)

/-- The device dict built inside `discover_devices`'s inner loop. -/
def deviceInfo (c : CastDevice) : DeviceInfo :=
  { name := c.name, friendly_name := c.friendly_name,
    model := c.model_name, manufacturer := c.manufacturer,
    uuid := c.uuid, host := c.host, port := c.port,
    cast_type := c.cast_type }

/-- `discover_devices`: runs the scan; on return stores the device list
and `time.time()` into the registry, then stops the browser, then builds
the summary list (skipping devices whose `cast.wait()`/attribute reads
raise). Any exception in the outer `try` — the scan itself or
`browser.stop_discovery()` — is caught and reported as a failure
envelope. Returns (new state, result, external-call trace). -/
def discover_devices (st : ServerState) (env : DiscoveryEnv) :
    ServerState × DiscoverResult × List DEvent :=
  match env.scan with
  | .raised msg =>
      (st,
       { success := false, message := "Failed to discover devices",
         error := some msg },
       [DEvent.scanCall])
  | .ok casts hasBrowser =>
      let st' : ServerState :=
        { chromecasts := casts, last_discovery_time := some env.now }
      let ev : List DEvent :=
        DEvent.scanCall :: (if hasBrowser then [DEvent.stopDiscovery] else [])
      if hasBrowser && !env.stopOk then
        -- `browser.stop_discovery()` raised: caught by the outer
        -- `except`, but the registry was already overwritten above.
        (st',
         { success := false, message := "Failed to discover devices",
           error := some env.stopMsg },
         ev)
      else
        let devices := (casts.filter env.infoOk).map deviceInfo
        (st',
         { success := true, device_count := devices.length,
           devices := devices,
           message := "Discovered " ++ toString devices.length
             ++ " Google Home/Chromecast device(s)" },
         ev ++ casts.map DEvent.wait)

/-- `list_devices`: failure envelope when the registry is empty
(`if not self.chromecasts:`); otherwise summarises the cached devices,
skipping any whose attribute reads raise (`infoOk`). -/
def list_devices (st : ServerState) (infoOk : CastDevice → Bool) :
    ListResult :=
  if st.chromecasts.isEmpty then
    { success := false,
      message := some "No devices found. Please run discover_devices first.",
      devices := [] }
  else
    let devices := (st.chromecasts.filter infoOk).map fun c =>
      ListDeviceInfo.mk c.name c.model_name c.host c.uuid
    { success := true, device_count := some devices.length,
      devices := devices,
      last_discovery := some st.last_discovery_time,
      message := some ("Found " ++ toString devices.length
        ++ " cached device(s)") }

/-- Python `int()` on a rational: truncation toward zero (used by the
`set_volume` success message `int(volume * 100)`). -/
def pyInt (q : Rat) : Int :=
  q.num.tdiv (q.den : Int)

/-- `get_device_status`: locate the device; on `NotFound` return the
failure envelope with no device call; otherwise `cast.wait()` then read
the live status. -/
def get_device_status (st : ServerState) (env : CmdEnv)
    (device_name : String) : CmdResult × List Effect :=
  match find_device st device_name with
  | none =>
      ({ success := false,
         error := some ("Device '" ++ device_name
           ++ "' not found. Please run discover_devices first.") }, [])
  | some cast =>
      if env.waitOk then
        let rt := env.runtime
        ({ success := true,
           status := some
             { name := cast.name, model := cast.model_name,
               is_idle := rt.is_idle, app_id := rt.app_id,
               app_display_name := rt.app_display_name,
               volume_level := rt.volume_level,
               volume_muted := rt.volume_muted,
               media := rt.media_status },
           message := some ("Status retrieved for " ++ device_name) },
         [Effect.wait])
      else
        ({ success := false, error := some env.waitErrMsg },
         [Effect.wait])

/-- `play_media`: locate the device; on `NotFound` return the failure
envelope with no device call; otherwise `cast.wait()`,
`mc.play_media(media_url, content_type, title=title)`,
`mc.block_until_active()`. A call that raises is recorded in the trace
at the point it was issued; later calls are skipped and the exception
is caught into a failure envelope. -/
def play_media (st : ServerState) (env : CmdEnv) (device_name : String)
    (media_url : String) (content_type : String) (title : String) :
    CmdResult × List Effect :=
  match find_device st device_name with
  | none =>
      ({ success := false,
         error := some ("Device '" ++ device_name ++ "' not found") }, [])
  | some _ =>
      if !env.waitOk then
        ({ success := false, error := some env.waitErrMsg },
         [Effect.wait])
      else if !env.opOk then
        ({ success := false, error := some env.opErrMsg },
         [Effect.wait, Effect.playMedia media_url content_type (some title)])
      else if !env.blockOk then
        ({ success := false, error := some env.blockErrMsg },
         [Effect.wait, Effect.playMedia media_url content_type (some title),
          Effect.blockUntilActive])
      else
        ({ success := true, device := some device_name,
           media_url := some media_url,
           message := some ("Playing media on " ++ device_name) },
         [Effect.wait, Effect.playMedia media_url content_type (some title),
          Effect.blockUntilActive])

/-- `pause_media`: locate, `cast.wait()`, `cast.media_controller.pause()`. -/
def pause_media (st : ServerState) (env : CmdEnv)
    (device_name : String) : CmdResult × List Effect :=
  match find_device st device_name with
  | none =>
      ({ success := false,
         error := some ("Device '" ++ device_name ++ "' not found") }, [])
  | some _ =>
      if !env.waitOk then
        ({ success := false, error := some env.waitErrMsg },
         [Effect.wait])
      else if !env.opOk then
        ({ success := false, error := some env.opErrMsg },
         [Effect.wait, Effect.pause])
      else
        ({ success := true,
           message := some ("Paused playback on " ++ device_name) },
         [Effect.wait, Effect.pause])

/-- `resume_media`: locate, `cast.wait()`, `cast.media_controller.play()`. -/
def resume_media (st : ServerState) (env : CmdEnv)
    (device_name : String) : CmdResult × List Effect :=
  match find_device st device_name with
  | none =>
      ({ success := false,
         error := some ("Device '" ++ device_name ++ "' not found") }, [])
  | some _ =>
      if !env.waitOk then
        ({ success := false, error := some env.waitErrMsg },
         [Effect.wait])
      else if !env.opOk then
        ({ success := false, error := some env.opErrMsg },
         [Effect.wait, Effect.resumePlay])
      else
        ({ success := true,
           message := some ("Resumed playback on " ++ device_name) },
         [Effect.wait, Effect.resumePlay])

/-- `stop_media`: locate, `cast.wait()`, `cast.media_controller.stop()`. -/
def stop_media (st : ServerState) (env : CmdEnv)
    (device_name : String) : CmdResult × List Effect :=
  match find_device st device_name with
  | none =>
      ({ success := false,
         error := some ("Device '" ++ device_name ++ "' not found") }, [])
  | some _ =>
      if !env.waitOk then
        ({ success := false, error := some env.waitErrMsg },
         [Effect.wait])
      else if !env.opOk then
        ({ success := false, error := some env.opErrMsg },
         [Effect.wait, Effect.stopPlayback])
      else
        ({ success := true,
           message := some ("Stopped playback on " ++ device_name) },
         [Effect.wait, Effect.stopPlayback])

/-- `set_volume`: locate, `cast.wait()`, `cast.set_volume(volume)`.
The volume is passed through unvalidated. -/
def set_volume (st : ServerState) (env : CmdEnv) (device_name : String)
    (volume : Rat) : CmdResult × List Effect :=
  match find_device st device_name with
  | none =>
      ({ success := false,
         error := some ("Device '" ++ device_name ++ "' not found") }, [])
  | some _ =>
      if !env.waitOk then
        ({ success := false, error := some env.waitErrMsg },
         [Effect.wait])
      else if !env.opOk then
        ({ success := false, error := some env.opErrMsg },
         [Effect.wait, Effect.setVolume volume])
      else
        ({ success := true, device := some device_name,
           volume := some volume,
           message := some ("Set volume to "
             ++ toString (pyInt (volume * 100)) ++ "% on " ++ device_name) },
         [Effect.wait, Effect.setVolume volume])

/-- `speak_text`: locate the device; on `NotFound` return the failure
envelope with no device call; otherwise build the TTS URL, then
`cast.wait()`, `mc.play_media(tts_url, "audio/mp3")` (no title),
`mc.block_until_active()`. -/
def speak_text (st : ServerState) (env : CmdEnv) (device_name : String)
    (text : String) (language : String) : CmdResult × List Effect :=
  match find_device st device_name with
  | none =>
      ({ success := false,
         error := some ("Device '" ++ device_name ++ "' not found") }, [])
  | some _ =>
      let url := tts_url language text
      if !env.waitOk then
        ({ success := false, error := some env.waitErrMsg },
         [Effect.wait])
      else if !env.opOk then
        ({ success := false, error := some env.opErrMsg },
         [Effect.wait, Effect.playMedia url "audio/mp3" none])
      else if !env.blockOk then
        ({ success := false, error := some env.blockErrMsg },
         [Effect.wait, Effect.playMedia url "audio/mp3" none,
          Effect.blockUntilActive])
      else
        ({ success := true, device := some device_name,
           text := some text, language := some language,
           message := some ("Speaking text on " ++ device_name) },
         [Effect.wait, Effect.playMedia url "audio/mp3" none,
          Effect.blockUntilActive])

/-- (URL, MIME type) of each `play_media` dispatch in a trace. -/
def playsOf : List Effect → List (String × String)
  | [] => []
  | Effect.playMedia url ct _ :: rest => (url, ct) :: playsOf rest
  | _ :: rest => playsOf rest

/-! ## Sample devices for concrete instances -/

/-- Sample registry entry: internal name differs from display name
(the spec's `{internal_name: "Bedroom", display_name: "Bedroom Speaker"}`
scenario). -/
def bedroomDev : CastDevice :=
  { name := "Bedroom", friendly_name := "Bedroom Speaker",
    model_name := "Google Home", manufacturer := "Google Inc.",
    uuid := "uuid-bedroom", host := "192.168.1.10", port := 8009,
    cast_type := "audio" }

/-- Sample registry entry whose names coincide. -/
def livingRoomDev : CastDevice :=
  { name := "Living Room", friendly_name := "Living Room",
    model_name := "Google Home Mini", manufacturer := "Google Inc.",
    uuid := "uuid-living", host := "192.168.1.11", port := 8009,
    cast_type := "audio" }

/-! ## Helper lemmas -/

/-- `List.find?` returns the first element satisfying the predicate. -/
theorem find?_first_match {α : Type} (p : α → Bool) :
    ∀ (l : List α) (a : α), l.find? p = some a →
      p a = true ∧ ∃ pre post, l = pre ++ a :: post ∧
        ∀ x ∈ pre, p x = false := by
  intro l
  induction l with
  | nil => intro a h; simp [List.find?] at h
  | cons b bs ih =>
    intro a h
    by_cases hb : p b
    · rw [List.find?_cons_of_pos _ hb] at h
      obtain rfl : b = a := by injection h
      exact ⟨hb, [], bs, rfl, by simp⟩
    · rw [List.find?_cons_of_neg _ hb] at h
      obtain ⟨hpa, pre, post, heq, hpre⟩ := ih a h
      refine ⟨hpa, b :: pre, post, by rw [heq]; rfl, ?_⟩
      intro x hx
      rcases List.mem_cons.mp hx with rfl | hx'
      · exact Bool.eq_false_iff.mpr hb
      · exact hpre x hx'

/-- Every byte `quoteByteChars` can receive is below 256. -/
theorem utf8Bytes_lt_256 (c : Char) : ∀ b ∈ utf8Bytes c, b < 256 := by
  have hv : c.toNat < 1114112 := by
    rcases c.valid with h | ⟨h1, h2⟩
    · exact Nat.lt_trans h (by norm_num)
    · exact h2
  intro b hb
  simp only [utf8Bytes] at hb
  by_cases h1 : c.toNat < 128 <;> by_cases h2 : c.toNat < 2048 <;>
    by_cases h3 : c.toNat < 65536 <;>
    simp [h1, h2, h3] at hb <;> omega

set_option maxRecDepth 4096 in
/-- `quote` never emits `'&'` for any single byte: safe bytes exclude
it, and escapes consist of `'%'` and uppercase hex digits. -/
theorem quoteByteChars_no_amp : ∀ b < 256, '&' ∉ quoteByteChars b := by
  decide

/-- `quote` output never contains `'&'`. -/
theorem amp_not_mem_quote (s : String) : '&' ∉ (quote s).data := by
  intro hmem
  have hmem' : '&' ∈ ((s.data.map utf8Bytes).flatten.map quoteByteChars).flatten :=
    hmem
  rw [List.mem_flatten] at hmem'
  obtain ⟨l, hl, hcl⟩ := hmem'
  rw [List.mem_map] at hl
  obtain ⟨b, hb, rfl⟩ := hl
  rw [List.mem_flatten] at hb
  obtain ⟨bs, hbs, hbbs⟩ := hb
  rw [List.mem_map] at hbs
  obtain ⟨c, _, rfl⟩ := hbs
  exact quoteByteChars_no_amp b (utf8Bytes_lt_256 c b hbbs) hcl

/-- Number of `'&'` characters in a string (each one separates query
components when the string is used as a URL). -/
def ampCount (s : String) : Nat :=
  (s.data.filter (fun c => c == '&')).length

/-- `ampCount` distributes over append. -/
theorem ampCount_append (a b : String) :
    ampCount (a ++ b) = ampCount a + ampCount b := by
  simp [ampCount, String.data_append, List.filter_append]

/-- `quote` output contributes no `'&'`. -/
theorem ampCount_quote (s : String) : ampCount (quote s) = 0 := by
  simp only [ampCount, List.length_eq_zero, List.filter_eq_nil_iff]
  intro c hc hbeq
  rw [beq_iff_eq] at hbeq
  exact amp_not_mem_quote s (hbeq ▸ hc)

/-! ## Claims -/

/-- Claim C1: for every registry state and input string, `_find_device`
returns the first registry entry (in registry order) whose internal
name or friendly name equals the input case-insensitively, and returns
None when the registry is empty or no entry matches. -/
theorem find_device_spec (st : ServerState) (device_name : String) :
    (st.chromecasts = [] → find_device st device_name = none) ∧
    (∀ c, find_device st device_name = some c →
      nameMatches device_name c = true ∧
      ∃ pre post, st.chromecasts = pre ++ c :: post ∧
        ∀ d ∈ pre, nameMatches device_name d = false) ∧
    (find_device st device_name = none →
      ∀ d ∈ st.chromecasts, nameMatches device_name d = false) := by
  refine ⟨?_, ?_, ?_⟩
  · intro h
    unfold find_device
    rw [h]
    rfl
  · intro c h
    exact find?_first_match (nameMatches device_name) st.chromecasts c h
  · intro h d hd
    have := List.find?_eq_none.mp h d hd
    exact Bool.eq_false_iff.mpr this

/-- Witness for C1 at the spec's scenario registry. -/
theorem find_device_spec_witness :
    find_device ⟨[], none⟩ "kitchen" = none ∧
    (nameMatches "bedroom speaker" bedroomDev = true ∧
     ∃ pre post,
       (ServerState.mk [bedroomDev] (some 3)).chromecasts
         = pre ++ bedroomDev :: post ∧
       ∀ d ∈ pre, nameMatches "bedroom speaker" d = false) :=
  ⟨(find_device_spec ⟨[], none⟩ "kitchen").1 rfl,
   (find_device_spec ⟨[bedroomDev], some 3⟩ "bedroom speaker").2.1
     bedroomDev (by decide)⟩

/-- Claim C2 counterexample: a discovery whose scan succeeds (returning
an empty device list and a browser handle) but whose
`browser.stop_discovery()` call raises is reported as a scan-level
failure (`success: false`), yet the registry contents and the
last-discovery timestamp have already been overwritten — discovery is
not atomic at that error point. -/
theorem discover_teardown_failure_mutates :
    (discover_devices ⟨[bedroomDev], some 5⟩
      ⟨.ok [] true, false, "socket closed", fun _ => true, 100⟩).2.1.success
        = false ∧
    (discover_devices ⟨[bedroomDev], some 5⟩
      ⟨.ok [] true, false, "socket closed", fun _ => true, 100⟩).1.chromecasts
        ≠ [bedroomDev] ∧
    (discover_devices ⟨[bedroomDev], some 5⟩
      ⟨.ok [] true, false, "socket closed", fun _ => true, 100⟩).1.last_discovery_time
        ≠ some 5 := by
  decide

/-- Claim C2 (amended): if the scan itself
(`pychromecast.get_chromecasts`) raises, the registry contents and the
last-discovery timestamp are left exactly as they were and the call
reports a failure carrying the underlying cause; an error raised after
the scan stores its results (the browser-teardown call) still yields a
failure envelope but leaves the new scan's registry and timestamp in
place. -/
theorem discover_scan_raise_atomic (st : ServerState) (env : DiscoveryEnv)
    (msg : String) (h : env.scan = .raised msg) :
    (discover_devices st env).1 = st ∧
    (discover_devices st env).2.1.success = false ∧
    (discover_devices st env).2.1.error = some msg := by
  unfold discover_devices
  rw [h]
  exact ⟨rfl, rfl, rfl⟩

/-- Witness for the amended C2. -/
theorem discover_scan_raise_atomic_witness :
    (discover_devices ⟨[bedroomDev], some 5⟩
      ⟨.raised "no network", true, "", fun _ => true, 100⟩).1
        = ⟨[bedroomDev], some 5⟩ ∧
    (discover_devices ⟨[bedroomDev], some 5⟩
      ⟨.raised "no network", true, "", fun _ => true, 100⟩).2.1.success
        = false ∧
    (discover_devices ⟨[bedroomDev], some 5⟩
      ⟨.raised "no network", true, "", fun _ => true, 100⟩).2.1.error
        = some "no network" :=
  discover_scan_raise_atomic ⟨[bedroomDev], some 5⟩
    ⟨.raised "no network", true, "", fun _ => true, 100⟩ "no network" rfl

/-- Claim C3: for every successful `discover_devices` call, the
registry contents afterwards equal exactly the device list returned by
the scan (wholesale replacement), and the last-discovery timestamp is
set to a wall-clock reading taken during the call, hence at least the
call's start time (the clock being monotone is the hypothesis
`startT ≤ env.now`). -/
theorem discover_success_replaces (st : ServerState) (env : DiscoveryEnv)
    (casts : List CastDevice) (hb : Bool) (startT : Nat)
    (hscan : env.scan = .ok casts hb) (hclock : startT ≤ env.now)
    (_hsucc : (discover_devices st env).2.1.success = true) :
    (discover_devices st env).1.chromecasts = casts ∧
    ∃ t, (discover_devices st env).1.last_discovery_time = some t ∧
      startT ≤ t := by
  unfold discover_devices
  rw [hscan]
  by_cases hstop : (hb && !env.stopOk) = true
  · simp only [hstop, if_true]
    exact ⟨by trivial, env.now, by trivial, hclock⟩
  · simp only [Bool.not_eq_true] at hstop
    simp only [hstop, Bool.false_eq_true, if_false]
    exact ⟨by trivial, env.now, by trivial, hclock⟩

/-- Witness for C3. -/
theorem discover_success_replaces_witness :
    (discover_devices ⟨[], none⟩
      ⟨.ok [bedroomDev] true, true, "", fun _ => true, 42⟩).1.chromecasts
        = [bedroomDev] ∧
    ∃ t, (discover_devices ⟨[], none⟩
      ⟨.ok [bedroomDev] true, true, "", fun _ => true, 42⟩).1.last_discovery_time
        = some t ∧ 40 ≤ t :=
  discover_success_replaces ⟨[], none⟩
    ⟨.ok [bedroomDev] true, true, "", fun _ => true, 42⟩
    [bedroomDev] true 40 rfl (by decide) (by decide)

/-- Claim C4: every command operation, given a device name the locator
does not resolve, returns a `success: false` envelope naming the device
and issues no device-layer call at all (empty effect trace: no wait, no
media-controller command, no volume set), for every environment. -/
theorem command_notfound_no_dispatch (st : ServerState) (env : CmdEnv)
    (name media_url content_type title text lang : String) (vol : Rat)
    (h : find_device st name = none) :
    get_device_status st env name =
      ({ success := false,
         error := some ("Device '" ++ name
           ++ "' not found. Please run discover_devices first.") }, []) ∧
    play_media st env name media_url content_type title =
      ({ success := false,
         error := some ("Device '" ++ name ++ "' not found") }, []) ∧
    pause_media st env name =
      ({ success := false,
         error := some ("Device '" ++ name ++ "' not found") }, []) ∧
    resume_media st env name =
      ({ success := false,
         error := some ("Device '" ++ name ++ "' not found") }, []) ∧
    stop_media st env name =
      ({ success := false,
         error := some ("Device '" ++ name ++ "' not found") }, []) ∧
    set_volume st env name vol =
      ({ success := false,
         error := some ("Device '" ++ name ++ "' not found") }, []) ∧
    speak_text st env name text lang =
      ({ success := false,
         error := some ("Device '" ++ name ++ "' not found") }, []) := by
  refine ⟨?_, ?_, ?_, ?_, ?_, ?_, ?_⟩ <;>
    · first
      | (unfold get_device_status; rw [h])
      | (unfold play_media; rw [h])
      | (unfold pause_media; rw [h])
      | (unfold resume_media; rw [h])
      | (unfold stop_media; rw [h])
      | (unfold set_volume; rw [h])
      | (unfold speak_text; rw [h])

/-- Witness for C4 against an empty registry. -/
theorem command_notfound_no_dispatch_witness :
    get_device_status ⟨[], none⟩ {} "Kitchen" =
      ({ success := false,
         error := some "Device 'Kitchen' not found. Please run discover_devices first." },
       []) ∧
    play_media ⟨[], none⟩ {} "Kitchen" "http://x/y.mp3" "audio/mp3" "" =
      ({ success := false, error := some "Device 'Kitchen' not found" }, []) ∧
    pause_media ⟨[], none⟩ {} "Kitchen" =
      ({ success := false, error := some "Device 'Kitchen' not found" }, []) ∧
    resume_media ⟨[], none⟩ {} "Kitchen" =
      ({ success := false, error := some "Device 'Kitchen' not found" }, []) ∧
    stop_media ⟨[], none⟩ {} "Kitchen" =
      ({ success := false, error := some "Device 'Kitchen' not found" }, []) ∧
    set_volume ⟨[], none⟩ {} "Kitchen" (1/2) =
      ({ success := false, error := some "Device 'Kitchen' not found" }, []) ∧
    speak_text ⟨[], none⟩ {} "Kitchen" "hello" "en" =
      ({ success := false, error := some "Device 'Kitchen' not found" }, []) :=
  command_notfound_no_dispatch ⟨[], none⟩ {} "Kitchen" "http://x/y.mp3"
    "audio/mp3" "" "hello" "en" (1/2) (by decide)

/-- Claim C5: for every resolved device, text and language (with the
device's connection wait succeeding), `speak_text` dispatches exactly
one play command, whose URL is the TTS endpoint with the language tag
embedded literally and the text percent-encoded, with MIME type
`audio/mp3`; in particular the URL for `"Xin chào"` / `"vi-VN"`
contains `"Xin%20ch%C3%A0o"` and `"tl=vi-VN"`. -/
theorem speak_text_tts_dispatch :
    (∀ (st : ServerState) (env : CmdEnv) (name text lang : String)
       (c : CastDevice),
      find_device st name = some c → env.waitOk = true →
      playsOf (speak_text st env name text lang).2
          = [(tts_url lang text, "audio/mp3")] ∧
      tts_url lang text =
        "https://translate.google.com/translate_tts?ie=UTF-8&client=tw-ob&tl="
          ++ lang ++ "&q=" ++ quote text) ∧
    (∃ p q, tts_url "vi-VN" "Xin chào" = p ++ "Xin%20ch%C3%A0o" ++ q) ∧
    (∃ p q, tts_url "vi-VN" "Xin chào" = p ++ "tl=vi-VN" ++ q) := by
  refine ⟨?_, ?_, ?_⟩
  · intro st env name text lang c hfind hwait
    refine ⟨?_, rfl⟩
    unfold speak_text
    rw [hfind]
    simp only [hwait, Bool.not_true]
    by_cases hop : env.opOk <;> by_cases hblock : env.blockOk <;>
      simp [hop, hblock, playsOf]
  · exact ⟨"https://translate.google.com/translate_tts?ie=UTF-8&client=tw-ob&tl=vi-VN&q=",
           "", by decide⟩
  · exact ⟨"https://translate.google.com/translate_tts?ie=UTF-8&client=tw-ob&",
           "&q=Xin%20ch%C3%A0o", by decide⟩

/-- Witness for C5: speaking on a resolved living-room device. -/
theorem speak_text_tts_dispatch_witness :
    playsOf (speak_text ⟨[livingRoomDev], some 9⟩ {} "living room"
        "Xin chào" "vi-VN").2
      = [(tts_url "vi-VN" "Xin chào", "audio/mp3")] ∧
    tts_url "vi-VN" "Xin chào" =
      "https://translate.google.com/translate_tts?ie=UTF-8&client=tw-ob&tl="
        ++ "vi-VN" ++ "&q=" ++ quote "Xin chào" :=
  speak_text_tts_dispatch.1 ⟨[livingRoomDev], some 9⟩ {} "living room"
    "Xin chào" "vi-VN" livingRoomDev (by decide) rfl

/-- Claim C6: on every execution path of `discover_devices` in which
the scan returns a browser handle — success, zero devices found, or the
teardown call itself raising — the `stop_discovery` call on that handle
is issued before the call returns. -/
theorem discover_stops_browser (st : ServerState) (env : DiscoveryEnv)
    (casts : List CastDevice) (h : env.scan = .ok casts true) :
    DEvent.stopDiscovery ∈ (discover_devices st env).2.2 := by
  unfold discover_devices
  rw [h]
  by_cases hstop : (true && !env.stopOk) = true <;> simp [hstop]

/-- Witness for C6 on the success path, the zero-device path, and the
teardown-raising path. -/
theorem discover_stops_browser_witness :
    DEvent.stopDiscovery ∈ (discover_devices ⟨[], none⟩
      ⟨.ok [bedroomDev] true, true, "", fun _ => true, 1⟩).2.2 ∧
    DEvent.stopDiscovery ∈ (discover_devices ⟨[], none⟩
      ⟨.ok [] true, true, "", fun _ => true, 1⟩).2.2 ∧
    DEvent.stopDiscovery ∈ (discover_devices ⟨[], none⟩
      ⟨.ok [] true, false, "teardown boom", fun _ => true, 1⟩).2.2 :=
  ⟨discover_stops_browser ⟨[], none⟩
      ⟨.ok [bedroomDev] true, true, "", fun _ => true, 1⟩ [bedroomDev] rfl,
   discover_stops_browser ⟨[], none⟩
      ⟨.ok [] true, true, "", fun _ => true, 1⟩ [] rfl,
   discover_stops_browser ⟨[], none⟩
      ⟨.ok [] true, false, "teardown boom", fun _ => true, 1⟩ [] rfl⟩

/-- Claim C7 counterexample: a call whose scan completes and finds zero
devices, but whose browser teardown raises, reports `success: false` —
so "scan completes with zero devices" does not by itself guarantee a
`success: true` report. -/
theorem discover_zero_found_reports_failure :
    (discover_devices ⟨[], none⟩
      ⟨.ok [] true, false, "socket error", fun _ => true, 7⟩).2.1.success
      = false := by
  decide

/-- Claim C7 (amended): when the scan completes with zero devices and
the browser teardown does not raise (or there is no browser handle),
the call reports `success: true` with `device_count` 0 and an empty
device list; and the registry becomes empty whenever the scan returns
zero devices, even if the teardown then raises — finding zero devices
is never itself an error. -/
theorem discover_zero_devices_ok :
    (∀ (st : ServerState) (env : DiscoveryEnv) (hb : Bool),
      env.scan = .ok [] hb → (hb = false ∨ env.stopOk = true) →
      (discover_devices st env).2.1.success = true ∧
      (discover_devices st env).2.1.device_count = 0 ∧
      (discover_devices st env).2.1.devices = []) ∧
    (∀ (st : ServerState) (env : DiscoveryEnv) (hb : Bool),
      env.scan = .ok [] hb →
      (discover_devices st env).1.chromecasts = []) := by
  constructor
  · intro st env hb hscan hstop
    unfold discover_devices
    rw [hscan]
    rcases hstop with rfl | hok
    · simp
    · simp [hok]
  · intro st env hb hscan
    unfold discover_devices
    rw [hscan]
    by_cases hstop : (hb && !env.stopOk) = true <;> simp [hstop]

/-- Witness for the amended C7. -/
theorem discover_zero_devices_ok_witness :
    ((discover_devices ⟨[bedroomDev], some 3⟩
        ⟨.ok [] true, true, "", fun _ => true, 9⟩).2.1.success = true ∧
     (discover_devices ⟨[bedroomDev], some 3⟩
        ⟨.ok [] true, true, "", fun _ => true, 9⟩).2.1.device_count = 0 ∧
     (discover_devices ⟨[bedroomDev], some 3⟩
        ⟨.ok [] true, true, "", fun _ => true, 9⟩).2.1.devices = []) ∧
    (discover_devices ⟨[bedroomDev], some 3⟩
        ⟨.ok [] true, true, "", fun _ => true, 9⟩).1.chromecasts = [] :=
  ⟨discover_zero_devices_ok.1 ⟨[bedroomDev], some 3⟩
      ⟨.ok [] true, true, "", fun _ => true, 9⟩ true rfl (Or.inr rfl),
   discover_zero_devices_ok.2 ⟨[bedroomDev], some 3⟩
      ⟨.ok [] true, true, "", fun _ => true, 9⟩ true rfl⟩

/-- Claim C8: on a successful discovery pass, the reported device list
contains exactly the scanned devices whose detail retrieval succeeded,
while the registry stores the full scan result; hence the reported
`device_count` can be strictly below the registry size, and the locator
can afterwards resolve a device the report never listed (shown
concretely for a one-device scan whose detail retrieval fails). -/
theorem discover_partial_info :
    (∀ (st : ServerState) (env : DiscoveryEnv) (casts : List CastDevice)
       (hb : Bool),
      env.scan = .ok casts hb → (hb = false ∨ env.stopOk = true) →
      (discover_devices st env).2.1.success = true ∧
      (discover_devices st env).2.1.devices
        = (casts.filter env.infoOk).map deviceInfo ∧
      (discover_devices st env).2.1.device_count
        = (casts.filter env.infoOk).length ∧
      (discover_devices st env).1.chromecasts = casts) ∧
    ((discover_devices ⟨[], none⟩
        ⟨.ok [bedroomDev] true, true, "", fun _ => false, 50⟩).2.1.success
        = true ∧
     (discover_devices ⟨[], none⟩
        ⟨.ok [bedroomDev] true, true, "", fun _ => false, 50⟩).2.1.device_count
        = 0 ∧
     (discover_devices ⟨[], none⟩
        ⟨.ok [bedroomDev] true, true, "", fun _ => false, 50⟩).1.chromecasts.length
        = 1 ∧
     find_device (discover_devices ⟨[], none⟩
        ⟨.ok [bedroomDev] true, true, "", fun _ => false, 50⟩).1
        "bedroom speaker" = some bedroomDev ∧
     deviceInfo bedroomDev ∉ (discover_devices ⟨[], none⟩
        ⟨.ok [bedroomDev] true, true, "", fun _ => false, 50⟩).2.1.devices) := by
  constructor
  · intro st env casts hb hscan hstop
    unfold discover_devices
    rw [hscan]
    rcases hstop with rfl | hok
    · simp
    · simp [hok]
  · decide

/-- Witness for C8. -/
theorem discover_partial_info_witness :
    (discover_devices ⟨[], none⟩
      ⟨.ok [bedroomDev, livingRoomDev] true, true, "",
       fun c => c.name == "Living Room", 50⟩).2.1.success = true ∧
    (discover_devices ⟨[], none⟩
      ⟨.ok [bedroomDev, livingRoomDev] true, true, "",
       fun c => c.name == "Living Room", 50⟩).2.1.devices
      = ([bedroomDev, livingRoomDev].filter
          (fun c => c.name == "Living Room")).map deviceInfo ∧
    (discover_devices ⟨[], none⟩
      ⟨.ok [bedroomDev, livingRoomDev] true, true, "",
       fun c => c.name == "Living Room", 50⟩).2.1.device_count
      = ([bedroomDev, livingRoomDev].filter
          (fun c => c.name == "Living Room")).length ∧
    (discover_devices ⟨[], none⟩
      ⟨.ok [bedroomDev, livingRoomDev] true, true, "",
       fun c => c.name == "Living Room", 50⟩).1.chromecasts
      = [bedroomDev, livingRoomDev] :=
  discover_partial_info.1 ⟨[], none⟩
    ⟨.ok [bedroomDev, livingRoomDev] true, true, "",
     fun c => c.name == "Living Room", 50⟩
    [bedroomDev, livingRoomDev] true rfl (Or.inr rfl)

/-- Claim C9: `list_devices` on an empty registry returns a
`success: false` envelope whose message directs the caller to run
discovery first — unlike discovery itself, which treats zero found
devices as success. -/
theorem list_devices_empty_failure (st : ServerState)
    (infoOk : CastDevice → Bool) (h : st.chromecasts = []) :
    list_devices st infoOk =
      { success := false,
        message := some "No devices found. Please run discover_devices first.",
        devices := [] } := by
  unfold list_devices
  rw [h]
  rfl

/-- Witness for C9. -/
theorem list_devices_empty_failure_witness :
    list_devices ⟨[], none⟩ (fun _ => true) =
      { success := false,
        message := some "No devices found. Please run discover_devices first.",
        devices := [] } :=
  list_devices_empty_failure ⟨[], none⟩ (fun _ => true) rfl

/-- Claim C10: the language string is interpolated into the TTS URL
verbatim (only the text parameter is percent-encoded, and encoding
never yields `'&'`), so every `'&'` in the language string survives
into the URL and adds a query component: the URL built from a language
containing `'&'` has one more `'&'`-separated component than one built
from a clean language tag. -/
theorem tts_language_verbatim :
    (∀ language text, tts_url language text =
      "https://translate.google.com/translate_tts?ie=UTF-8&client=tw-ob&tl="
        ++ language ++ "&q=" ++ quote text) ∧
    (∀ text, ampCount (quote text) = 0) ∧
    (∀ language text,
      ampCount (tts_url language text) = 3 + ampCount language) ∧
    ampCount (tts_url "vi-VN" "hi") = 3 ∧
    ampCount (tts_url "vi-VN&x=1" "hi") = 4 := by
  have hbase : ampCount
      "https://translate.google.com/translate_tts?ie=UTF-8&client=tw-ob&tl="
      = 2 := by decide
  have hq : ampCount "&q=" = 1 := by decide
  refine ⟨fun _ _ => rfl, ampCount_quote, ?_, by decide, by decide⟩
  intro lang text
  unfold tts_url
  rw [ampCount_append, ampCount_append, ampCount_append, hbase, hq,
    ampCount_quote]
  omega

end MCP
